import Mathlib

/-!
Verification of the job-opening-autogen pipeline against its specification.

The Python source is shallowly embedded: pure functions become Lean functions,
in-place mutation of the per-workflow state dict becomes explicit state passing,
Python exceptions become `Except` values tagged with the exception class
(the source only ever branches on the class of an exception, never on its
message, so messages are elided), wall-clock timestamps become `Nat` ticks
passed in by the caller, and the LLM / database / human collaborators become
oracle parameters describing the answers they would give.
-/

set_option autoImplicit false

namespace JobOpeningAutogen

/-- Classes of Python exceptions raised by the embedded code.  The source
branches only on the exception class (`except LLMError`, `except DatabaseError`,
`except Exception`), never on the message, so messages are not modelled. -/
inductive PyExn where
  | attributeError
  | typeError
  | keyError
  | llmError
  | validationError
  | workflowError
  | databaseError
  deriving DecidableEq

/-- Python truthiness of an optional string: `None` and the empty string are
falsy, any other string is truthy. -/
def pyTruthy : Option String → Bool
  | none => false
  | some s => s != ""

/-- Python `a or b` on an optional string `a` with string default `b`:
returns `b` when `a` is `None` or empty, otherwise the string in `a`.
Used for `db_company.company_name or company_name` (workflow line 256). -/
def pyOr (a : Option String) (b : String) : String :=
  match a with
  | none => b
  | some s => if s == "" then b else s

/-- Python rendering of an optional string inside an f-string: `None` prints as
the literal text `None` (no `.get` default applies when the key is present with
value `None`, which is how `structure_input` builds these dicts). -/
def pyStrOfOpt : Option String → String
  | none => "None"
  | some s => s

/-- Python `s.strip()`: remove whitespace from both ends of the string.
Written structurally over the character list so it evaluates by kernel
reduction. -/
def pyStrip (s : String) : String :=
  String.mk (((s.data.dropWhile Char.isWhitespace).reverse.dropWhile
    Char.isWhitespace).reverse)

/-- Python `sep.join(items)` where every item of `items` is itself a list of
strings rather than a `str`: `str.join` returns `""` on an empty iterable and
raises `TypeError` at the first non-string item.  This embeds the expression
`", ".join([validation.issues for validation in failed_validations])` of
`generate_draft` (workflow line 500), whose items are lists. -/
def join_of_list_items (_sep : String) (items : List (List String)) : Except PyExn String :=
  match items with
  | [] => Except.ok ""
  | _ :: _ => Except.error PyExn.typeError

/-! ## Data model (src/models/job_posting.py)

Enum-valued fields (`JobTypeEnum`, `ExperienceLevel`, `SalaryType`,
`WorkLocationEnum`, `CompanyClassificationEnum`) are `str`-enums whose `.value`
is always extracted before use (the `hasattr(x, "value")` dance in the source),
so they are embedded directly as `String`. -/

/-- Embeds `SalaryInfo` (job_posting.py line 78).  Amounts are rationals. -/
structure SalaryInfo where
  type : String
  min_amount : Option ℚ
  max_amount : Option ℚ
  currency : Option String
  is_negotiable : Option Bool
  deriving DecidableEq

/-- Embeds `WorkLocation` (job_posting.py line 96). -/
structure WorkLocation where
  type : String
  address : Option String
  city : Option String
  country : Option String
  deriving DecidableEq

/-- Embeds `UserInput` (job_posting.py line 143), the structured request. -/
structure UserInput where
  job_title : String
  company_name : String
  requirements : List String
  preferred_qualifications : List String
  job_type : String
  experience_level : String
  salary_info : Option SalaryInfo
  work_location : Option WorkLocation
  additional_info : Option (List String)
  deriving DecidableEq

/-- Embeds `CompanyData` (job_posting.py line 104). -/
structure CompanyData where
  company_name : String
  company_classification : Option String
  homepage : Option String
  logo_url : Option String
  intro_summary : Option String
  intro_detail : Option String
  main_business : Option String
  deriving DecidableEq

/-- Embeds `ValidationStatus` (job_posting.py line 70). -/
inductive ValidationStatus where
  | pending
  | passed
  | failed
  | requiresReview
  deriving DecidableEq, BEq

/-- Embeds `ValidationResult` (job_posting.py line 164); `validated_at` and
`metadata` are irrelevant to every claim and elided. -/
structure ValidationResult where
  status : ValidationStatus
  score : ℚ
  issues : List String
  suggestions : List String
  validator_type : String
  deriving DecidableEq

/-- Embeds `JobPostingDraft` (job_posting.py line 175).  The application
deadline is kept as an opaque string. -/
structure JobPostingDraft where
  title : String
  company_name : String
  job_description : String
  requirements : List String
  job_type : String
  experience_level : String
  preferred_qualifications : List String
  benefits : List String
  salary_info : Option SalaryInfo
  work_location : Option WorkLocation
  application_deadline : Option String
  contact_email : Option String
  deriving DecidableEq

/-! ## The consolidated input (structure_input, workflow lines 403-425)

`structure_input` builds a plain Python dict of dicts.  Every key below is
always present in that dict (so `.get(key, default)` returns the stored value,
even when that value is `None`); optional values are `Option`. -/

/-- The `company_info` sub-dict of the consolidated input.  This is a plain
`dict`, not a `CompanyData` instance: attribute access on it raises
`AttributeError`. -/
structure CompanyInfoDict where
  company_name : String
  company_classification : Option String
  homepage : Option String
  logo_url : Option String
  intro_summary : Option String
  intro_detail : Option String
  main_business : Option String
  deriving DecidableEq

/-- The `requirements` sub-dict of the consolidated input. -/
structure RequirementsDict where
  essential : List String
  preferred : List String
  deriving DecidableEq

/-- The `job_details` sub-dict of the consolidated input.  `salary` and
`location` hold `model_dump()` results or `None` (workflow lines 421-422). -/
structure JobDetailsDict where
  type : String
  experience_level : String
  salary : Option SalaryInfo
  location : Option WorkLocation
  deriving DecidableEq

/-- The consolidated generation-ready input built by `structure_input`. -/
structure StructuredInput where
  job_title : String
  company_info : CompanyInfoDict
  requirements : RequirementsDict
  job_details : JobDetailsDict
  additional_info : Option (List String)
  deriving DecidableEq

/-- Embeds `GenerationContext` (generator.py line 32); the free-form
`generation_metadata` dict is never read by the generator and is elided. -/
structure GenerationContext where
  structured_input : StructuredInput
  deriving DecidableEq

/-! ## Draft generation (src/components/generator.py) -/

/-- Embeds `JobPostingGenerator._generate_fallback_description`
(generator.py lines 291-331).  The appended description parts are pure string
formatting and cannot raise; the decisive step is line 307,
`if company_info.intro_detail:`, which is an attribute access on the plain
dict `structured_input["company_info"]` built by `structure_input` — a Python
`dict` has no attribute `intro_detail`, so `AttributeError` is raised whenever
this line is reached, and it is always reached (lines 301-305 before it only
use `.get`). -/
def generate_fallback_description (ctx : GenerationContext) : Except PyExn String :=
  let company_info := ctx.structured_input.company_info
  let part_company : String :=
    "[회사 소개]\n" ++ company_info.company_name ++ "은(는) "
      ++ pyStrOfOpt company_info.company_classification ++ "에서 활동하는 "
      ++ pyStrOfOpt company_info.intro_summary ++ " 기업입니다."
  let parts : List String :=
    if pyTruthy company_info.main_business then
      [part_company, "주요 사업: " ++ pyStrOfOpt company_info.main_business]
    else
      [part_company]
  let _ := parts
  Except.error PyExn.attributeError

/-- Embeds `JobPostingGenerator._generate_fallback_posting`
(generator.py lines 230-289) in source order.  The `try` body is an `Except`
computation; `except Exception` (line 287) converts any failure into
`LLMError`.  Lines 251 and 255 call `.get` on `job_details["salary"]` and
`job_details["location"]`, which are `None` when the user supplied no salary
or location: `None.get` raises `AttributeError`.  When both are dicts, the
keyword arguments of `JobPostingDraft(...)` are evaluated left to right and
`job_description=self._generate_fallback_description(context)` (line 262)
raises before the draft is built. -/
def generate_fallback_posting (ctx : GenerationContext) : Except PyExn JobPostingDraft :=
  let body : Except PyExn JobPostingDraft := do
    let company_info := ctx.structured_input.company_info
    let job_details := ctx.structured_input.job_details
    let requirements := ctx.structured_input.requirements
    let job_type := job_details.type
    let experience_level := job_details.experience_level
    let salary_type ← (match job_details.salary with
      | none => Except.error PyExn.attributeError
      | some s => Except.ok s.type)
    let location_type ← (match job_details.location with
      | none => Except.error PyExn.attributeError
      | some l => Except.ok l.type)
    -- `job_details.get("job_title", "정보 없음")`: the job_details dict has no
    -- job_title key (the title sits at the top level), so the default is used.
    let title := company_info.company_name ++ " " ++ "정보 없음" ++ " 채용"
    let company_name := company_info.company_name
    let job_description ← generate_fallback_description ctx
    let salary := (job_details.salary).getD
      { type := salary_type, min_amount := none, max_amount := none,
        currency := none, is_negotiable := none }
    let location := (job_details.location).getD
      { type := location_type, address := none, city := none, country := none }
    Except.ok
      { title := title
        company_name := company_name
        job_description := job_description
        requirements := if requirements.essential = [] then ["기본적인 업무 능력"]
                        else requirements.essential
        job_type := job_type
        experience_level := experience_level
        preferred_qualifications := requirements.preferred
        benefits := []
        salary_info := some { type := salary_type, min_amount := salary.min_amount,
                              max_amount := salary.max_amount, currency := salary.currency,
                              is_negotiable := salary.is_negotiable }
        work_location := some { type := location_type, address := location.address,
                                city := location.city, country := location.country }
        application_deadline := none
        contact_email := none }
  match body with
  | Except.ok d => Except.ok d
  | Except.error _ => Except.error PyExn.llmError

/-- Embeds `LLMManager.generate_structured_output` (llm_client.py lines
334-366): try the primary client, then each fallback client in order; any
exception from a client moves on to the next; when every client has failed,
raise `LLMError`.  A client is represented by the outcome it would produce,
paired with its model name. -/
def llm_manager_generate_structured_output :
    List (Except PyExn JobPostingDraft × String) → Except PyExn (JobPostingDraft × String)
  | [] => Except.error PyExn.llmError
  | (r, model_name) :: rest =>
      match r with
      | Except.ok jp => Except.ok (jp, model_name)
      | Except.error _ => llm_manager_generate_structured_output rest

/-- Per-draft generation metadata (`generated_by`); wall-clock
`generation_time` is elided. -/
structure DraftMetadata where
  generated_by : String
  deriving DecidableEq

/-- Embeds `JobPostingGenerator.generate_job_posting` (generator.py lines
57-113): call the structured-output capability; `except LLMError` (line 104)
falls back to `_generate_fallback_posting` with `generated_by = "fallback"`;
exceptions of any other class would propagate. -/
def generate_job_posting (clients : List (Except PyExn JobPostingDraft × String))
    (ctx : GenerationContext) : Except PyExn (JobPostingDraft × DraftMetadata) :=
  match llm_manager_generate_structured_output clients with
  | Except.ok (jp, model_name) => Except.ok (jp, { generated_by := model_name })
  | Except.error PyExn.llmError =>
      (generate_fallback_posting ctx).map (fun d => (d, { generated_by := "fallback" }))
  | Except.error e => Except.error e

/-- The template fallback never returns a draft: every control path of
`_generate_fallback_posting` raises (`None.get` when salary or location is
absent, otherwise the `company_info.intro_detail` attribute access inside
`_generate_fallback_description`), and `except Exception` re-raises
`LLMError`. -/
theorem generate_fallback_posting_raises (ctx : GenerationContext) :
    generate_fallback_posting ctx = Except.error PyExn.llmError := by
  obtain ⟨⟨jt, ci, req, jd, ai⟩⟩ := ctx
  obtain ⟨ty, el, sal, loc⟩ := jd
  cases sal <;> cases loc <;> rfl

/-! ## The execution state (WorkflowState, workflow lines 52-97)

The LangGraph `WorkflowState` TypedDict is mutated in place by each stage;
here every stage is a function `WorkflowState → WorkflowState` and the
mutations inside a `try` block that happen before an exception persist into
the `except` handler, exactly as in the source.  `datetime.now()` becomes a
`Nat` tick supplied by the caller. -/

/-- Per-stage metadata dict.  The source builds these dicts with varying key
sets; an `Option` field set to `none` means the key is absent (so subscript
access on it raises `KeyError`). -/
structure StageMetadata where
  thread_id : Option String
  generated_by : Option String
  reasoning : Option String
  error : Option PyExn
  deriving DecidableEq

/-- The `reliability_indicators` sub-dict of `data_source_tracking`
(workflow lines 227, 305-310, 342-347, 373); `none` means the key is absent. -/
structure ReliabilityIndicators where
  database_source : Option Bool
  user_provided_only : Option Bool
  verification_needed : Option Bool
  potential_hallucination_risk : Option Bool
  database_error : Option Bool
  fallback_mode : Option Bool
  high_uncertainty : Option Bool
  critical_error : Option Bool
  deriving DecidableEq

/-- The empty `reliability_indicators` dict (workflow line 227). -/
def ReliabilityIndicators.empty : ReliabilityIndicators :=
  ⟨none, none, none, none, none, none, none, none⟩

/-- The `data_source_tracking` dict built by `retrieve_company_data`
(workflow lines 222-229 and updates).  Search-attempt timestamps and db-record
ids are elided; `data_completeness_score` is `none` when the key is absent
(the outer error path, line 371, builds a dict without it). -/
structure DataSourceTracking where
  original_company_name : Option String
  data_completeness_score : Option ℚ
  reliability_indicators : ReliabilityIndicators
  verification_flags : List String
  db_record_found : Option Bool
  fallback_used : Option Bool
  deriving DecidableEq

/-- Embeds the `WorkflowState` TypedDict (workflow lines 52-97). -/
structure WorkflowState where
  raw_input : Option String
  user_input : Option UserInput
  sensitivity_validation_metadata : Option StageMetadata
  company_data : Option CompanyData
  data_source_tracking : Option DataSourceTracking
  structured_input : Option StructuredInput
  structured_input_metadata : Option StageMetadata
  validation_results : List ValidationResult
  job_posting_draft : Option JobPostingDraft
  draft_metadata : Option DraftMetadata
  hallucination_validation_metadata : Option StageMetadata
  workflow_id : String
  current_step : String
  status : String
  errors : List String
  warnings : List String
  step_count : Nat
  start_time : Nat
  last_updated : Nat
  deriving DecidableEq

/-- The bookkeeping prologue every stage runs at the top of its `try` block
(e.g. workflow lines 114-117): set the current step, mark the state running,
increment `step_count` and refresh `last_updated`. -/
def stage_begin (step : String) (now : Nat) (state : WorkflowState) : WorkflowState :=
  { state with current_step := step, status := "running",
               step_count := state.step_count + 1, last_updated := now }

/-- The `except Exception` epilogue of a stage (e.g. workflow lines 143-149):
append the error message, set the step and status to `error`.  All mutations
made before the exception persist. -/
def stage_error (msg : String) (state : WorkflowState) : WorkflowState :=
  { state with errors := state.errors ++ [msg], current_step := "error", status := "error" }

/-! ## The interruptible agent runtime (sensitivity_validator.py,
hallucination_validator.py)

`create_react_agent(...).invoke` is abstracted as an oracle
`Nat → AgentResponse σ`: index 0 is the initial invocation, index `n ≥ 1` the
`n`-th resume invocation.  Human feedback (stdin `input` or the feedback-session
API) only contributes text to the resume payload and never raises
(`get_human_feedback_via_api` catches every exception and returns default
answers), so it is elided. -/

/-- One response from the react-agent executor: either it was interrupted by
the `get_human_feedback` tool (the response carries `__interrupt__` with the
questions and no `structured_response` key), or it finished and the
`structured_response` key is present — its value may still be `None`. -/
inductive AgentResponse (σ : Type) where
  | interrupted (questions : List String)
  | completed (structured : Option σ)

/-- Result of one validator run: the value the Python function body produces
(`Except.error` for a raised exception, `Except.ok none` for falling off the
end of the function and returning `None`), together with the number of
suspend/resume cycles that were executed. -/
structure AgentRunResult (α : Type) where
  result : Except PyExn (Option α)
  resume_calls : Nat

/-- Embeds `SensitivityValidationRequest` (sensitivity_validator.py line 30). -/
structure SensitivityValidationRequest where
  user_input : UserInput
  deriving DecidableEq

/-- The hard-coded model name of both validators (sensitivity_validator.py
line 84, hallucination_validator.py line 124). -/
def validatorModelName : String := "gpt-4o-mini"

/-- The `try` body of `analyze_sensitivity_with_agent`
(sensitivity_validator.py lines 83-123), transcribed in source order.
The initial `invoke` is `oracle 0`.  The `while "structured_response" not in
response` loop (line 108) executes at most one iteration: its body always
raises or returns — `cnt` is 1 at the `if cnt > 5: break` check (line 116),
and afterwards a missing or `None` `structured_response` raises
`ValidationError` (line 121) while a present one returns (line 123).  When the
initial response already contains `structured_response`, the loop never runs
and control falls off the end of the function, returning `None`: the only
`return` statement sits inside the loop body. -/
def analyze_sensitivity_body (oracle : Nat → AgentResponse UserInput)
    (thread_id : String) : AgentRunResult (UserInput × StageMetadata) :=
  let metadata : StageMetadata :=
    { thread_id := some thread_id, generated_by := some validatorModelName,
      reasoning := none, error := none }
  match oracle 0 with
  | AgentResponse.completed _ =>
      -- loop skipped; no statement follows it, so the function returns None
      { result := Except.ok none, resume_calls := 0 }
  | AgentResponse.interrupted _questions =>
      -- first loop iteration: cnt := 1, collect feedback, resume
      let response := oracle 1
      if 5 < 1 then
        -- `if cnt > 5: break` — dead at cnt = 1; break would fall off the end
        { result := Except.ok none, resume_calls := 1 }
      else
        match response with
        | AgentResponse.interrupted _ =>
            -- response.get("structured_response", None) is None → raise
            { result := Except.error PyExn.validationError, resume_calls := 1 }
        | AgentResponse.completed none =>
            { result := Except.error PyExn.validationError, resume_calls := 1 }
        | AgentResponse.completed (some structured) =>
            { result := Except.ok (some (structured, metadata)), resume_calls := 1 }

/-- Embeds `analyze_sensitivity_with_agent` (sensitivity_validator.py lines
81-127): the body wrapped in `except Exception`, which re-raises every
internal exception as `ValidationError` (line 127).  The second component
counts the suspend/resume cycles. -/
def analyze_sensitivity_with_agent (oracle : Nat → AgentResponse UserInput)
    (_request : SensitivityValidationRequest) (thread_id : String) :
    Except PyExn (Option (UserInput × StageMetadata)) × Nat :=
  let b := analyze_sensitivity_body oracle thread_id
  (match b.result with
   | Except.ok v => Except.ok v
   | Except.error _ => Except.error PyExn.validationError,
   b.resume_calls)

/-- Embeds `ProcessedResult` (hallucination_validator.py line 40): the
structured response of the consistency validator; a `None` draft means
"no change needed". -/
structure ProcessedResult where
  job_posting_draft : Option JobPostingDraft
  reasoning : String
  deriving DecidableEq

/-- Embeds `HallucinationValidationRequest` (hallucination_validator.py
line 35). -/
structure HallucinationValidationRequest where
  job_posting_draft : JobPostingDraft
  structured_input : StructuredInput
  deriving DecidableEq

/-- The metadata dict built in the `except Exception` handler of
`analyze_intrinsic_consistency_with_agent` (hallucination_validator.py
line 186): records the error and the fixed reasoning text; `thread_id` and
`generated_by` keys are absent. -/
def hallucErrorMetadata (e : PyExn) : StageMetadata :=
  { thread_id := none, generated_by := none, reasoning := some "환각 검증 실패",
    error := some e }

/-- The `try` body of `analyze_intrinsic_consistency_with_agent`
(hallucination_validator.py lines 123-182), transcribed in source order.
When the initial response has a `structured_response` key (line 146), the
metadata dict is built from `structured_response.reasoning` (line 148)
before the `None` check (line 150), so a `None` value raises
`AttributeError` there.  Otherwise the `while` loop runs: as in the
sensitivity validator its body always raises or returns during the first
iteration (`cnt = 1`), so the `if cnt > 5: break` bound (line 170) is
unreachable. -/
def analyze_intrinsic_consistency_body (oracle : Nat → AgentResponse ProcessedResult)
    (request : HallucinationValidationRequest) (thread_id : String) :
    AgentRunResult (JobPostingDraft × StageMetadata) :=
  let job_posting := request.job_posting_draft
  match oracle 0 with
  | AgentResponse.completed none =>
      -- metadata build reads structured_response.reasoning on None → AttributeError
      { result := Except.error PyExn.attributeError, resume_calls := 0 }
  | AgentResponse.completed (some structured) =>
      let metadata : StageMetadata :=
        { thread_id := some thread_id, generated_by := some validatorModelName,
          reasoning := some structured.reasoning, error := none }
      match structured.job_posting_draft with
      | none => { result := Except.ok (some (job_posting, metadata)), resume_calls := 0 }
      | some revised => { result := Except.ok (some (revised, metadata)), resume_calls := 0 }
  | AgentResponse.interrupted _questions =>
      -- first loop iteration: cnt := 1, feedback via the session API, resume
      let response := oracle 1
      if 5 < 1 then
        { result := Except.ok none, resume_calls := 1 }
      else
        match response with
        | AgentResponse.interrupted _ =>
            { result := Except.error PyExn.validationError, resume_calls := 1 }
        | AgentResponse.completed none =>
            { result := Except.error PyExn.validationError, resume_calls := 1 }
        | AgentResponse.completed (some structured) =>
            let metadata : StageMetadata :=
              { thread_id := some thread_id, generated_by := some validatorModelName,
                reasoning := some structured.reasoning, error := none }
            match structured.job_posting_draft with
            | none => { result := Except.ok (some (job_posting, metadata)), resume_calls := 1 }
            | some revised => { result := Except.ok (some (revised, metadata)), resume_calls := 1 }

/-- Embeds `analyze_intrinsic_consistency_with_agent`
(hallucination_validator.py lines 118-188): the body wrapped in
`except Exception`, which returns the original draft together with an error
metadata dict (lines 184-188) instead of propagating.  `some` is a returned
pair, `none` the (unreachable) `None` fall-off return; the second component
counts suspend/resume cycles. -/
def analyze_intrinsic_consistency_with_agent (oracle : Nat → AgentResponse ProcessedResult)
    (request : HallucinationValidationRequest) (thread_id : String) :
    Option (JobPostingDraft × StageMetadata) × Nat :=
  let b := analyze_intrinsic_consistency_body oracle request thread_id
  (match b.result with
   | Except.ok v => v
   | Except.error e => some (request.job_posting_draft, hallucErrorMetadata e),
   b.resume_calls)

/-! ## Stage functions (src/workflows/job_posting_workflow.py) -/

/-- Embeds `structure_natural_language_input` (workflow lines 100-151).
The processor outcome (`process_natural_language_input`) is the oracle
`proc`; the second returned component counts how many times the
structured-output capability was invoked.  When `user_input` is already set
(truthy — a pydantic model is always truthy) the stage returns the state
unchanged before any bookkeeping (lines 108-110). -/
def structure_natural_language_input (proc : Except PyExn (UserInput × StageMetadata))
    (now : Nat) (state : WorkflowState) : WorkflowState × Nat :=
  if state.user_input.isSome then
    (state, 0)
  else
    let s1 := stage_begin "structure_natural_language_input" now state
    if pyTruthy state.raw_input then
      match proc with
      | Except.ok (u, m) =>
          ({ s1 with user_input := some u, structured_input_metadata := some m }, 1)
      | Except.error _ =>
          (stage_error "자연어 입력 구조화 중 예상치 못한 오류" s1, 1)
    else
      -- WorkflowError("자연어 입력 데이터가 없습니다") raised before the processor call
      (stage_error "자연어 입력 구조화 중 예상치 못한 오류" s1, 0)

/-- Embeds `call_sensitivity_validation_agent` (workflow lines 153-193).
After storing the validated input and the metadata (lines 181-182), the log
statement on line 183 subscripts `metadata["generated_by"]` and
`metadata["reasoning"]`; the metadata dict built by the sensitivity validator
(sensitivity_validator.py line 98) has no `reasoning` key, so this raises
`KeyError` after the state updates have already happened. -/
def call_sensitivity_validation_agent (oracle : Nat → AgentResponse UserInput)
    (now : Nat) (state : WorkflowState) : WorkflowState :=
  let s1 := stage_begin "call_sensitivity_validation_agent" now state
  match state.user_input with
  | none => stage_error "민감성 검증 에이전트 호출 중 예상치 못한 오류" s1
  | some u =>
      match (analyze_sensitivity_with_agent oracle { user_input := u } state.workflow_id).1 with
      | Except.error _ => stage_error "민감성 검증 에이전트 호출 중 예상치 못한 오류" s1
      | Except.ok none =>
          -- `if not result or not isinstance(result, tuple) ...` → WorkflowError
          stage_error "민감성 검증 에이전트 호출 중 예상치 못한 오류" s1
      | Except.ok (some (validated, metadata)) =>
          let s2 := { s1 with user_input := some validated,
                              sensitivity_validation_metadata := some metadata }
          match metadata.generated_by, metadata.reasoning with
          | some _, some _ => s2
          | _, _ => stage_error "민감성 검증 에이전트 호출 중 예상치 못한 오류" s2

/-- One row returned by `search_companies`: the nullable columns of the
`Company` ORM model that `retrieve_company_data` reads (workflow lines
255-263). -/
structure DBCompanyRow where
  company_name : Option String
  company_classification : Option String
  homepage : Option String
  logo_url : Option String
  intro_summary : Option String
  intro_detail : Option String
  main_business : Option String
  deriving DecidableEq

/-- The reference-store outcome seen by `retrieve_company_data`:
`rows` is a successful `search_companies` result (possibly empty), `dbError`
a `DatabaseError` caught by the inner handler (workflow line 321), and
`otherError` any other exception escaping the `with get_repositories` block
into the outer handler (line 363). -/
inductive DBOutcome where
  | rows (found : List DBCompanyRow)
  | dbError
  | otherError

/-- The six optional `CompanyData` fields counted by the completeness score
(workflow lines 277-280). -/
def completeness_fields (cd : CompanyData) : List (Option String) :=
  [cd.company_classification, cd.homepage, cd.logo_url,
   cd.intro_summary, cd.intro_detail, cd.main_business]

/-- Number of populated optional fields (workflow lines 281-282). -/
def filled_fields (cd : CompanyData) : Nat :=
  (completeness_fields cd).countP (fun f => f.isSome)

/-- The tracking dict of the outer error handler (workflow lines 371-375):
no completeness score, only the `critical_error` indicator and flags. -/
def criticalErrorTracking : DataSourceTracking :=
  { original_company_name := none, data_completeness_score := none,
    reliability_indicators := { ReliabilityIndicators.empty with critical_error := some true },
    verification_flags := ["critical_error", "no_data_available"],
    db_record_found := none, fallback_used := none }

/-- Embeds `retrieve_company_data` (workflow lines 195-377).  A database row
is represented by the `CompanyData`-shaped values it would yield; on a hit
the completeness score is `filled / 6 * 100` (lines 277-283), on a miss `10`
(line 304), on a `DatabaseError` `5` with `database_error = true`
(lines 338-348), and on any other exception the outer handler replaces the
tracking dict with `criticalErrorTracking`. -/
def retrieve_company_data (db : DBOutcome) (now : Nat) (state : WorkflowState) :
    WorkflowState :=
  let s1 := stage_begin "retrieve_company_data" now state
  match state.user_input with
  | none =>
      -- WorkflowError("사용자 입력 데이터가 없습니다") → outer except handler
      { stage_error "기업 데이터 검색 실패" s1 with
          data_source_tracking := some criticalErrorTracking }
  | some u =>
      let company_name := u.company_name
      match db with
      | DBOutcome.rows (db_company :: _rest) =>
          let company_data : CompanyData :=
            { company_name := pyOr db_company.company_name company_name,
              company_classification := db_company.company_classification,
              homepage := db_company.homepage,
              logo_url := db_company.logo_url,
              intro_summary := db_company.intro_summary,
              intro_detail := db_company.intro_detail,
              main_business := db_company.main_business }
          { s1 with
              company_data := some company_data,
              data_source_tracking := some
                { original_company_name := some company_name,
                  data_completeness_score := some ((filled_fields company_data : ℚ) / 6 * 100),
                  reliability_indicators := ReliabilityIndicators.empty,
                  verification_flags := [],
                  db_record_found := none, fallback_used := none } }
      | DBOutcome.rows [] =>
          let company_data : CompanyData :=
            { company_name := company_name, company_classification := none,
              homepage := none, logo_url := none, intro_summary := none,
              intro_detail := none, main_business := none }
          { s1 with
              company_data := some company_data,
              data_source_tracking := some
                { original_company_name := some company_name,
                  data_completeness_score := some 10,
                  reliability_indicators :=
                    { ReliabilityIndicators.empty with
                        database_source := some false, user_provided_only := some true,
                        verification_needed := some true,
                        potential_hallucination_risk := some true },
                  verification_flags :=
                    ["no_database_match", "company_name_only", "high_hallucination_risk"],
                  db_record_found := some false, fallback_used := none } }
      | DBOutcome.dbError =>
          let company_data : CompanyData :=
            { company_name := company_name, company_classification := none,
              homepage := none, logo_url := none, intro_summary := none,
              intro_detail := none, main_business := none }
          { s1 with
              company_data := some company_data,
              data_source_tracking := some
                { original_company_name := some company_name,
                  data_completeness_score := some 5,
                  reliability_indicators :=
                    { ReliabilityIndicators.empty with
                        database_source := some false, database_error := some true,
                        fallback_mode := some true, high_uncertainty := some true },
                  verification_flags :=
                    ["database_error", "fallback_data_only", "critical_verification_needed"],
                  db_record_found := none, fallback_used := some true } }
      | DBOutcome.otherError =>
          { stage_error "기업 데이터 검색 실패" s1 with
              data_source_tracking := some criticalErrorTracking }

/-- The FAILED check for an empty job title (workflow lines 434-440). -/
def emptyTitleValidationResult : ValidationResult :=
  { status := ValidationStatus.failed, score := 0,
    issues := ["채용 직무명이 비어있습니다"],
    suggestions := ["구체적인 직무명을 입력해주세요"],
    validator_type := "required_field_validator" }

/-- The FAILED check for missing requirements (workflow lines 443-449). -/
def noRequirementsValidationResult : ValidationResult :=
  { status := ValidationStatus.failed, score := 0,
    issues := ["필수 요구사항이 없습니다"],
    suggestions := ["최소 1개 이상의 요구사항을 입력해주세요"],
    validator_type := "required_field_validator" }

/-- The PASSED result recorded when both cheap checks succeed
(workflow lines 452-458). -/
def passedValidationResult : ValidationResult :=
  { status := ValidationStatus.passed, score := 100, issues := [],
    suggestions := [], validator_type := "basic_validator" }

/-- Embeds `structure_input` (workflow lines 380-471): merge the structured
request and the company data into the consolidated dict, then run the cheap
structural checks (non-empty stripped title, at least one requirement) and
record one `ValidationResult` per failed check, or a single PASSED result. -/
def structure_input (now : Nat) (state : WorkflowState) : WorkflowState :=
  let s1 := stage_begin "structure_input" now state
  match state.user_input, state.company_data with
  | some u, some cd =>
      let structured_data : StructuredInput :=
        { job_title := u.job_title,
          company_info :=
            { company_name := cd.company_name,
              company_classification := cd.company_classification,
              homepage := cd.homepage, logo_url := cd.logo_url,
              intro_summary := cd.intro_summary, intro_detail := cd.intro_detail,
              main_business := cd.main_business },
          requirements := { essential := u.requirements,
                            preferred := u.preferred_qualifications },
          job_details := { type := u.job_type, experience_level := u.experience_level,
                           salary := u.salary_info, location := u.work_location },
          additional_info := u.additional_info }
      let s2 := { s1 with structured_input := some structured_data }
      let checks : List ValidationResult :=
        (if pyStrip u.job_title = "" then [emptyTitleValidationResult] else []) ++
        (if u.requirements = [] then [noRequirementsValidationResult] else [])
      let results := if checks = [] then [passedValidationResult] else checks
      { s2 with validation_results := results }
  | _, _ =>
      -- WorkflowError("사용자 입력 또는 기업 데이터가 없습니다")
      stage_error "입력 구조화 실패" s1

/-- Embeds `generate_draft` (workflow lines 474-536).  When the recorded
validation results contain a FAILED entry, line 500 evaluates
`", ".join([validation.issues for validation in failed_validations])` inside
the warning log call; the items are lists of strings, so `str.join` raises
`TypeError` and the stage falls into its error handler before the generator
is ever called. -/
def generate_draft (clients : List (Except PyExn JobPostingDraft × String))
    (now : Nat) (state : WorkflowState) : WorkflowState :=
  let s1 := stage_begin "generate_draft" now state
  match state.structured_input with
  | none => stage_error "채용공고 생성 실패" s1
  | some structured =>
      let failed_validations :=
        state.validation_results.filter (fun v => v.status == ValidationStatus.failed)
      let warn_step : Except PyExn Unit :=
        if failed_validations.isEmpty then Except.ok ()
        else (join_of_list_items ", " (failed_validations.map (fun v => v.issues))).map
          (fun _ => ())
      match warn_step with
      | Except.error _ => stage_error "채용공고 생성 실패" s1
      | Except.ok _ =>
          match generate_job_posting clients { structured_input := structured } with
          | Except.error _ => stage_error "채용공고 생성 실패" s1
          | Except.ok (job_posting, metadata) =>
              { s1 with job_posting_draft := some job_posting,
                        draft_metadata := some metadata }

/-- Embeds `call_hallucination_validation_agent` (workflow lines 538-584).
Building `HallucinationValidationRequest` with `structured_input = None`
fails pydantic validation (the field is a required `Dict`), which the stage
handler converts into the error status.  On success the stage stores the
validated draft and the metadata and sets `status = "completed"`. -/
def call_hallucination_validation_agent (oracle : Nat → AgentResponse ProcessedResult)
    (now : Nat) (state : WorkflowState) : WorkflowState :=
  let s1 := stage_begin "call_hallucination_validation_agent" now state
  match state.job_posting_draft with
  | none => stage_error "환각 검증 에이전트 호출 중 예상치 못한 오류" s1
  | some draft =>
      match state.structured_input with
      | none => stage_error "환각 검증 에이전트 호출 중 예상치 못한 오류" s1
      | some structured =>
          let request : HallucinationValidationRequest :=
            { job_posting_draft := draft, structured_input := structured }
          match (analyze_intrinsic_consistency_with_agent oracle request
                  (state.workflow_id ++ "_HV")).1 with
          | none => stage_error "환각 검증 에이전트 호출 중 예상치 못한 오류" s1
          | some (validated, metadata) =>
              { s1 with job_posting_draft := some validated,
                        hallucination_validation_metadata := some metadata,
                        status := "completed" }

/-! ## Feedback session bridge (src/api/routes/feedback.py)

Sessions live in two stores: the in-memory `active_sessions` dict and the
database table.  Both are embedded as association lists keyed by
`session_id`; `alistSet` has Python-dict assignment semantics (update the
existing entry, insert otherwise). -/

/-- First value bound to a key in an association list. -/
def alistFind {α : Type} : List (String × α) → String → Option α
  | [], _ => none
  | (k0, v0) :: rest, k => if k0 = k then some v0 else alistFind rest k

/-- Set a key in an association list (update in place, insert if absent),
mirroring Python dict assignment and ORM row updates. -/
def alistSet {α : Type} : List (String × α) → String → α → List (String × α)
  | [], k, v => [(k, v)]
  | (k0, v0) :: rest, k, v =>
      if k0 = k then (k, v) :: rest else (k0, v0) :: alistSet rest k v

/-- Remove a key from an association list (Python `del`). -/
def alistErase {α : Type} : List (String × α) → String → List (String × α)
  | [], _ => []
  | (k0, v0) :: rest, k =>
      if k0 = k then rest else (k0, v0) :: alistErase rest k

/-- An entry of the in-memory `active_sessions` dict (feedback.py lines
92-100, 176-178).  `user_feedback` is absent (`none`) until a submission. -/
structure MemFeedbackSession where
  status : String
  user_feedback : Option (List String)
  completed_at : Option Nat
  deriving DecidableEq

/-- A `FeedbackSession` database row as touched by the routes (feedback.py
lines 77-85, 171-173, 346-348). -/
structure DBFeedbackSession where
  status : String
  user_feedback : List String
  completed_at : Option Nat
  deriving DecidableEq

/-- The two shared session stores of the feedback bridge. -/
structure FeedbackStore where
  active : List (String × MemFeedbackSession)
  db : List (String × DBFeedbackSession)
  deriving DecidableEq

/-- HTTP-level outcome of `submit_feedback`: success, 404 (unknown session),
or 400 (already processed). -/
inductive SubmitOutcome where
  | ok
  | notFound404
  | alreadyProcessed400
  deriving DecidableEq

/-- Embeds `create_feedback_session` (feedback.py lines 59-127): store a
`pending` record in the database and in `active_sessions` (expiry bookkeeping
elided; the background cleanup task it registers is `cleanup_expired_session`
below). -/
def create_feedback_session (session_id : String) (store : FeedbackStore) :
    FeedbackStore :=
  { active := alistSet store.active session_id
      { status := "pending", user_feedback := none, completed_at := none },
    db := alistSet store.db session_id
      { status := "pending", user_feedback := [], completed_at := none } }

/-- Embeds `submit_feedback` (feedback.py lines 130-199): 404 when the
session is not in `active_sessions`, 400 when its in-memory status is not
`pending`, 404 when the database row is missing; otherwise mark both records
`completed` and store the answers. -/
def submit_feedback (session_id : String) (user_feedback : List String) (now : Nat)
    (store : FeedbackStore) : SubmitOutcome × FeedbackStore :=
  match alistFind store.active session_id with
  | none => (SubmitOutcome.notFound404, store)
  | some info =>
      if info.status != "pending" then (SubmitOutcome.alreadyProcessed400, store)
      else
        match alistFind store.db session_id with
        | none => (SubmitOutcome.notFound404, store)
        | some row =>
            let row1 : DBFeedbackSession :=
              { row with status := "completed", user_feedback := user_feedback,
                         completed_at := some now }
            let info1 : MemFeedbackSession :=
              { info with status := "completed", user_feedback := some user_feedback,
                          completed_at := some now }
            (SubmitOutcome.ok,
             { active := alistSet store.active session_id info1,
               db := alistSet store.db session_id row1 })

/-- Embeds the post-sleep part of `cleanup_expired_session` (feedback.py
lines 329-349): in memory, a still-`pending` session is marked `expired` and
the entry is then removed regardless of status; in the database the row is
set to `expired` with a fresh `completed_at` WITHOUT checking its current
status (lines 346-348) — there is no `pending` guard on the database path. -/
def cleanup_expired_session (session_id : String) (now : Nat) (store : FeedbackStore) :
    FeedbackStore :=
  let active1 :=
    match alistFind store.active session_id with
    | none => store.active
    | some info =>
        let a :=
          if info.status == "pending" then
            alistSet store.active session_id { info with status := "expired" }
          else store.active
        alistErase a session_id
  let db1 :=
    match alistFind store.db session_id with
    | none => store.db
    | some row =>
        alistSet store.db session_id
          { row with status := "expired", completed_at := some now }
  { active := active1, db := db1 }

/-! ## Status route (src/api/routes/status.py) -/

/-- The payload of the workflow-status endpoint (responses schema), reduced
to the fields the route fills. -/
structure WorkflowStatusResponse where
  success : Bool
  workflow_id : String
  status : String
  current_node : String
  progress_percentage : ℚ
  steps_completed : Nat
  total_steps : Nat
  deriving DecidableEq

/-- Embeds `get_workflow_status` (status.py lines 69-106).  The body is a
TODO mock: it never consults the checkpoint store it is given and returns a
fixed in-progress payload for every `workflow_id` (lines 83-99). -/
def get_workflow_status (_checkpoint_store : String → Option WorkflowState)
    (workflow_id : String) : WorkflowStatusResponse :=
  { success := true, workflow_id := workflow_id, status := "running",
    current_node := "sensitivity_validation", progress_percentage := 65,
    steps_completed := 3, total_steps := 5 }

/-! ## Concrete fixtures used by the claim theorems -/

/-- A fresh per-run state as `JobPostingWorkflow.run` builds it (workflow
lines 673-684), with `Nat` ticks for the timestamps.  The Python initial dict
carries no `status` key; no stage reads it before writing it, so its initial
value here (`"initialized"`) is arbitrary. -/
def initial_state (workflow_id : String) (raw_input : Option String)
    (user_input : Option UserInput) (t : Nat) : WorkflowState :=
  { raw_input := raw_input, user_input := user_input,
    sensitivity_validation_metadata := none, company_data := none,
    data_source_tracking := none, structured_input := none,
    structured_input_metadata := none, validation_results := [],
    job_posting_draft := none, draft_metadata := none,
    hallucination_validation_metadata := none,
    workflow_id := workflow_id, current_step := "initialized",
    status := "initialized", errors := [], warnings := [],
    step_count := 0, start_time := t, last_updated := t }

/-- A structured request with a job title and one requirement. -/
def exampleUserInput : UserInput :=
  { job_title := "백엔드 엔지니어", company_name := "ACME corp",
    requirements := ["SQL 활용 능력"], preferred_qualifications := [],
    job_type := "정규직", experience_level := "신입",
    salary_info := some { type := "연봉", min_amount := some 4000,
                          max_amount := some 6000, currency := some "KRW",
                          is_negotiable := some false },
    work_location := some { type := "재택근무", address := none,
                            city := some "서울", country := some "한국" },
    additional_info := some [] }

/-- The consolidated input `structure_input` builds from `exampleUserInput`
and a store miss for the company (name only). -/
def exampleStructuredInput : StructuredInput :=
  { job_title := "백엔드 엔지니어",
    company_info := { company_name := "ACME corp", company_classification := none,
                      homepage := none, logo_url := none, intro_summary := none,
                      intro_detail := none, main_business := none },
    requirements := { essential := ["SQL 활용 능력"], preferred := [] },
    job_details := { type := "정규직", experience_level := "신입",
                     salary := some { type := "연봉", min_amount := some 4000,
                                      max_amount := some 6000, currency := some "KRW",
                                      is_negotiable := some false },
                     location := some { type := "재택근무", address := none,
                                        city := some "서울", country := some "한국" } },
    additional_info := some [] }

/-- A well-formed draft, used as a provider output. -/
def exampleDraft : JobPostingDraft :=
  { title := "ACME corp 백엔드 엔지니어 채용", company_name := "ACME corp",
    job_description := "백엔드 서비스 개발과 운영을 담당합니다.",
    requirements := ["SQL 활용 능력"], job_type := "정규직",
    experience_level := "신입", preferred_qualifications := [], benefits := [],
    salary_info := none, work_location := none,
    application_deadline := none, contact_email := none }

/-- A provider list in which every configured provider fails. -/
def allProvidersFail : List (Except PyExn JobPostingDraft × String) :=
  [(Except.error PyExn.llmError, "gpt-5-mini"),
   (Except.error PyExn.llmError, "claude-sonnet-4-20250514")]

/-- A provider list whose first provider succeeds. -/
def okProvider : List (Except PyExn JobPostingDraft × String) :=
  [(Except.ok exampleDraft, "gpt-5-mini")]

/-- The execution state right before `generate_draft`: consolidated input
present and the cheap structural checks passed. -/
def stateBeforeGeneration : WorkflowState :=
  { initial_state "wf-c1" none (some exampleUserInput) 0 with
      structured_input := some exampleStructuredInput,
      validation_results := [passedValidationResult] }

/-! ## Claim theorems -/

/-- C1: the claim says that with a job title and one requirement present,
`generate_draft` still produces a non-null draft when every provider fails,
via the deterministic template fallback.  The code cannot do this: the
fallback itself always raises (`company_info.intro_detail` is an attribute
access on a plain dict), `except Exception` turns that into `LLMError`, and
the stage records the error status with no draft. -/
theorem C1_generate_draft_errors_when_all_providers_fail :
    generate_fallback_posting { structured_input := exampleStructuredInput }
      = Except.error PyExn.llmError ∧
    (generate_draft allProvidersFail 6 stateBeforeGeneration).job_posting_draft = none ∧
    (generate_draft allProvidersFail 6 stateBeforeGeneration).status = "error" :=
  ⟨generate_fallback_posting_raises _, rfl, rfl⟩

/-- An agent oracle that completes immediately with a revised input and no
suspension (the validator found nothing needing human feedback). -/
def cleanCompletionOracle : Nat → AgentResponse UserInput :=
  fun _ => AgentResponse.completed (some exampleUserInput)

/-- The state entering the sensitivity stage. -/
def stateBeforeSensitivity : WorkflowState :=
  initial_state "wf-c2" none (some exampleUserInput) 0

/-- C2: the claim says each validation stage returns the original or a
revised subject and never yields a non-result when nothing needs changing.
When the sensitivity agent completes without suspending, the only `return`
statement of `analyze_sensitivity_with_agent` (inside the `while` loop) is
never reached: the function falls off the end and returns `None`, and the
calling stage then records the error status. -/
theorem C2_sensitivity_returns_none_without_suspension :
    analyze_sensitivity_with_agent cleanCompletionOracle
        { user_input := exampleUserInput } "wf-c2" = (Except.ok none, 0) ∧
    (call_sensitivity_validation_agent cleanCompletionOracle 3 stateBeforeSensitivity).status
      = "error" :=
  ⟨rfl, rfl⟩

/-- An agent oracle that suspends (requests human feedback) on every turn. -/
def alwaysSuspendInput : Nat → AgentResponse UserInput :=
  fun _ => AgentResponse.interrupted ["이 요구사항을 어떻게 수정할까요?"]

/-- The always-suspending oracle for the consistency validator. -/
def alwaysSuspendDraft : Nat → AgentResponse ProcessedResult :=
  fun _ => AgentResponse.interrupted ["이 내용은 참조 정보로 확인할 수 없습니다"]

/-- A concrete consistency-validation request. -/
def exampleHallucinationRequest : HallucinationValidationRequest :=
  { job_posting_draft := exampleDraft, structured_input := exampleStructuredInput }

/-- C3: the claim says an always-suspending run terminates as Failed after
exactly 5 suspend/resume cycles, returning the latest subject.  In the code
the `if cnt > 5: break` bound is dead: every loop iteration raises or
returns, so an always-suspending run ends after exactly ONE resume cycle —
the sensitivity validator by raising `ValidationError` (not returning the
subject), the consistency validator by degrading to the original draft with
error metadata. -/
theorem C3_retry_bound_is_one_cycle_not_five :
    analyze_sensitivity_with_agent alwaysSuspendInput
        { user_input := exampleUserInput } "wf-c3"
      = (Except.error PyExn.validationError, 1) ∧
    analyze_intrinsic_consistency_with_agent alwaysSuspendDraft
        exampleHallucinationRequest "wf-c3_HV"
      = (some (exampleDraft, hallucErrorMetadata PyExn.validationError), 1) :=
  ⟨rfl, rfl⟩

/-- A store holding exactly one freshly created session. -/
def storeWithOneSession : FeedbackStore :=
  create_feedback_session "sess-1" { active := [], db := [] }

/-- The same store after the user submits an answer. -/
def storeAfterSubmission : FeedbackStore :=
  (submit_feedback "sess-1" ["해당 문구를 삭제해주세요"] 5 storeWithOneSession).2

/-- C4: the claim says a terminal session is immutable and the expiry sweep
never overwrites a completed session.  The submission correctly completes the
record, but when the background cleanup fires it sets the database row of the
already-completed session to `expired` and overwrites `completed_at` — the
`pending` guard exists only for the in-memory copy. -/
theorem C4_sweep_overwrites_completed_session :
    (alistFind storeAfterSubmission.db "sess-1").map (fun r => r.status)
      = some "completed" ∧
    (alistFind (cleanup_expired_session "sess-1" 600 storeAfterSubmission).db
        "sess-1").map (fun r => r.status) = some "expired" ∧
    (alistFind (cleanup_expired_session "sess-1" 600 storeAfterSubmission).db
        "sess-1").map (fun r => r.completed_at) = some (some 600) :=
  ⟨rfl, rfl, rfl⟩

/-- A structured request whose requirements list is empty, so the cheap
structural check fails. -/
def userInputWithoutRequirements : UserInput :=
  { exampleUserInput with requirements := [] }

/-- The state entering `structure_input` with that request and a store-miss
company record. -/
def stateBeforeConsolidation : WorkflowState :=
  { initial_state "wf-c5" none (some userInputWithoutRequirements) 0 with
      company_data := some
        { company_name := "ACME corp", company_classification := none,
          homepage := none, logo_url := none, intro_summary := none,
          intro_detail := none, main_business := none } }

/-- C5: the claim says a failed structural check is only a warning and
generation still proceeds to a draft.  The check is indeed recorded as a
FAILED `ValidationResult`, but `generate_draft` then evaluates
`", ".join([validation.issues ...])` over a list of lists, raising
`TypeError`, so the stage enters the error status without a draft even when
the provider would have succeeded. -/
theorem C5_failed_structural_check_turns_into_error_status :
    (structure_input 3 stateBeforeConsolidation).validation_results
      = [noRequirementsValidationResult] ∧
    (generate_draft okProvider 4 (structure_input 3 stateBeforeConsolidation)).status
      = "error" ∧
    (generate_draft okProvider 4 (structure_input 3 stateBeforeConsolidation)).job_posting_draft
      = none :=
  ⟨by decide, by decide, by decide⟩

/-- C6: the claim says the status query reads the checkpoint store and
returns `not_found` when no checkpoint exists.  The route is a TODO mock: it
ignores the store entirely (the response is the same for every store) and
fabricates a fixed `running` payload for any `workflow_id`, including ids
with no checkpoint. -/
theorem C6_status_route_fabricates_running_state :
    (get_workflow_status (fun _ => none) "missing-wf").status = "running" ∧
    (get_workflow_status (fun _ => none) "missing-wf").status ≠ "not_found" ∧
    ∀ store1 store2 : String → Option WorkflowState, ∀ wid : String,
      get_workflow_status store1 wid = get_workflow_status store2 wid :=
  ⟨rfl, by decide, fun _ _ _ => rfl⟩

/-- At most six of the completeness fields can be populated. -/
theorem filled_fields_le_six (cd : CompanyData) : filled_fields cd ≤ 6 := by
  have h := List.countP_le_length (p := fun f : Option String => f.isSome)
    (l := completeness_fields cd)
  simpa [completeness_fields] using h

/-- The store-hit completeness score `filled / 6 * 100` lies in [0, 100]. -/
theorem hit_score_bounds (cd : CompanyData) :
    0 ≤ ((filled_fields cd : ℚ) / 6 * 100) ∧ ((filled_fields cd : ℚ) / 6 * 100) ≤ 100 := by
  have h6 : ((filled_fields cd : ℚ)) ≤ 6 := by exact_mod_cast filled_fields_le_six cd
  have h0 : (0 : ℚ) ≤ (filled_fields cd : ℚ) := by positivity
  constructor
  · positivity
  · rw [div_mul_eq_mul_div, div_le_iff₀ (by norm_num : (0 : ℚ) < 6)]
    nlinarith

/-- C7: on every outcome of the reference-data stage, a recorded completeness
score lies in [0, 100], and whenever `reliability_indicators.database_error`
is set to true the score is at most 10 (it is exactly 5, the `DatabaseError`
fallback path). -/
theorem C7_completeness_score_bounds (db : DBOutcome) (now : Nat)
    (state : WorkflowState) (tr : DataSourceTracking)
    (h : (retrieve_company_data db now state).data_source_tracking = some tr) :
    (∀ s, tr.data_completeness_score = some s → 0 ≤ s ∧ s ≤ 100) ∧
    (tr.reliability_indicators.database_error = some true →
      ∀ s, tr.data_completeness_score = some s → s ≤ 10) := by
  unfold retrieve_company_data at h
  cases hu : state.user_input with
  | none =>
      rw [hu] at h
      simp only [Option.some.injEq] at h
      subst h
      refine ⟨?_, ?_⟩
      · intro s hs
        simp [criticalErrorTracking] at hs
      · intro hdb
        simp [criticalErrorTracking, ReliabilityIndicators.empty] at hdb
  | some u =>
      rw [hu] at h
      cases db with
      | rows found =>
          cases found with
          | nil =>
              simp only [Option.some.injEq] at h
              subst h
              refine ⟨?_, ?_⟩
              · intro s hs
                simp only [Option.some.injEq] at hs
                subst hs
                norm_num
              · intro hdb
                simp [ReliabilityIndicators.empty] at hdb
          | cons row rest =>
              simp only [Option.some.injEq] at h
              subst h
              refine ⟨?_, ?_⟩
              · intro s hs
                simp only [Option.some.injEq] at hs
                subst hs
                exact hit_score_bounds _
              · intro hdb
                simp [ReliabilityIndicators.empty] at hdb
      | dbError =>
          simp only [Option.some.injEq] at h
          subst h
          refine ⟨?_, ?_⟩
          · intro s hs
            simp only [Option.some.injEq] at hs
            subst hs
            norm_num
          · intro _ s hs
            simp only [Option.some.injEq] at hs
            subst hs
            norm_num
      | otherError =>
          simp only [Option.some.injEq] at h
          subst h
          refine ⟨?_, ?_⟩
          · intro s hs
            simp [criticalErrorTracking] at hs
          · intro hdb
            simp [criticalErrorTracking, ReliabilityIndicators.empty] at hdb

/-- The tracking record of the `DatabaseError` fallback path for
`exampleUserInput`. -/
def dbErrorTracking : DataSourceTracking :=
  { original_company_name := some "ACME corp",
    data_completeness_score := some 5,
    reliability_indicators :=
      { ReliabilityIndicators.empty with
          database_source := some false, database_error := some true,
          fallback_mode := some true, high_uncertainty := some true },
    verification_flags :=
      ["database_error", "fallback_data_only", "critical_verification_needed"],
    db_record_found := none, fallback_used := some true }

/-- Witness for C7 at the `DatabaseError` outcome: the recorded score is 5,
inside [0, 100] and at most 10 while `database_error = true`. -/
theorem C7_witness :
    ((retrieve_company_data DBOutcome.dbError 2 stateBeforeSensitivity).data_source_tracking
        = some dbErrorTracking) ∧
    (0 ≤ (5 : ℚ) ∧ (5 : ℚ) ≤ 100) ∧ (5 : ℚ) ≤ 10 :=
  ⟨rfl,
   (C7_completeness_score_bounds DBOutcome.dbError 2 stateBeforeSensitivity
      dbErrorTracking rfl).1 5 rfl,
   (C7_completeness_score_bounds DBOutcome.dbError 2 stateBeforeSensitivity
      dbErrorTracking rfl).2 rfl 5 rfl⟩

/-- C8: invoking the structuring stage on a state whose structured request is
already present returns the state unchanged — no field, step counter or
timestamp is modified — and performs zero structured-output capability
calls. -/
theorem C8_structure_stage_skips_when_already_structured
    (proc : Except PyExn (UserInput × StageMetadata)) (now : Nat)
    (state : WorkflowState) (u : UserInput) (h : state.user_input = some u) :
    structure_natural_language_input proc now state = (state, 0) := by
  simp [structure_natural_language_input, h]

/-- Witness for C8 at a concrete already-structured state. -/
theorem C8_witness :
    (initial_state "wf-c8" none (some exampleUserInput) 4).user_input
        = some exampleUserInput ∧
    structure_natural_language_input (Except.error PyExn.llmError) 9
        (initial_state "wf-c8" none (some exampleUserInput) 4)
      = (initial_state "wf-c8" none (some exampleUserInput) 4, 0) :=
  ⟨rfl, C8_structure_stage_skips_when_already_structured _ 9 _ exampleUserInput rfl⟩

/-- C9: for every agent oracle, request and thread id, the consistency
validator returns a pair (it never raises and never returns `None`), and
whenever its `try` body raises internally the returned draft is the original
one from the request, with the error recorded in the metadata. -/
theorem C9_consistency_validator_never_raises
    (oracle : Nat → AgentResponse ProcessedResult)
    (request : HallucinationValidationRequest) (thread_id : String) :
    (analyze_intrinsic_consistency_with_agent oracle request thread_id).1.isSome = true ∧
    (∀ e, (analyze_intrinsic_consistency_body oracle request thread_id).result
        = Except.error e →
      (analyze_intrinsic_consistency_with_agent oracle request thread_id).1
        = some (request.job_posting_draft, hallucErrorMetadata e)) := by
  constructor
  · cases h0 : oracle 0 with
    | completed s =>
        cases s with
        | none =>
            simp [analyze_intrinsic_consistency_with_agent,
                  analyze_intrinsic_consistency_body, h0]
        | some sr =>
            cases hj : sr.job_posting_draft <;>
              simp [analyze_intrinsic_consistency_with_agent,
                    analyze_intrinsic_consistency_body, h0, hj]
    | interrupted q =>
        cases h1 : oracle 1 with
        | interrupted q2 =>
            simp [analyze_intrinsic_consistency_with_agent,
                  analyze_intrinsic_consistency_body, h0, h1]
        | completed s =>
            cases s with
            | none =>
                simp [analyze_intrinsic_consistency_with_agent,
                      analyze_intrinsic_consistency_body, h0, h1]
            | some sr =>
                cases hj : sr.job_posting_draft <;>
                  simp [analyze_intrinsic_consistency_with_agent,
                        analyze_intrinsic_consistency_body, h0, h1, hj]
  · intro e he
    simp [analyze_intrinsic_consistency_with_agent, he]

/-- An oracle whose initial response carries the `structured_response` key
with value `None`, making the metadata build raise `AttributeError`. -/
def immediateNoneOracle : Nat → AgentResponse ProcessedResult :=
  fun _ => AgentResponse.completed none

/-- Witness for C9: a run whose body raises returns the original draft with
the error recorded. -/
theorem C9_witness :
    (analyze_intrinsic_consistency_body immediateNoneOracle
        exampleHallucinationRequest "wf-c9").result
      = Except.error PyExn.attributeError ∧
    (analyze_intrinsic_consistency_with_agent immediateNoneOracle
        exampleHallucinationRequest "wf-c9").1
      = some (exampleHallucinationRequest.job_posting_draft,
              hallucErrorMetadata PyExn.attributeError) :=
  ⟨rfl,
   (C9_consistency_validator_never_raises immediateNoneOracle
      exampleHallucinationRequest "wf-c9").2 PyExn.attributeError rfl⟩

/-- The non-skip structuring stage bumps the step counter and refreshes the
timestamp, whatever the processor outcome. -/
theorem structure_nli_bumps (proc : Except PyExn (UserInput × StageMetadata))
    (now : Nat) (state : WorkflowState) (h : state.user_input = none) :
    (structure_natural_language_input proc now state).1.step_count
        = state.step_count + 1 ∧
    (structure_natural_language_input proc now state).1.last_updated = now := by
  refine ⟨?_, ?_⟩ <;>
    (unfold structure_natural_language_input
     simp only [h, Option.isSome_none, Bool.false_eq_true, if_false]
     repeat' split
     all_goals (first | rfl | simp [stage_begin, stage_error])
     all_goals (repeat' split
                all_goals (first | rfl | simp [stage_begin, stage_error])))

/-- The sensitivity stage bumps the step counter and refreshes the
timestamp, whatever the agent does. -/
theorem call_sensitivity_bumps (oracle : Nat → AgentResponse UserInput)
    (now : Nat) (state : WorkflowState) :
    (call_sensitivity_validation_agent oracle now state).step_count
        = state.step_count + 1 ∧
    (call_sensitivity_validation_agent oracle now state).last_updated = now := by
  refine ⟨?_, ?_⟩ <;>
    (unfold call_sensitivity_validation_agent
     repeat' split
     all_goals (first | rfl | simp [stage_begin, stage_error])
     all_goals (repeat' split
                all_goals (first | rfl | simp [stage_begin, stage_error])))

/-- The retrieval stage bumps the step counter and refreshes the timestamp. -/
theorem retrieve_company_data_bumps (db : DBOutcome) (now : Nat)
    (state : WorkflowState) :
    (retrieve_company_data db now state).step_count = state.step_count + 1 ∧
    (retrieve_company_data db now state).last_updated = now := by
  refine ⟨?_, ?_⟩ <;>
    (unfold retrieve_company_data
     repeat' split
     all_goals (first | rfl | simp [stage_begin, stage_error])
     all_goals (repeat' split
                all_goals (first | rfl | simp [stage_begin, stage_error])))

/-- The consolidation stage bumps the step counter and refreshes the
timestamp. -/
theorem structure_input_bumps (now : Nat) (state : WorkflowState) :
    (structure_input now state).step_count = state.step_count + 1 ∧
    (structure_input now state).last_updated = now := by
  refine ⟨?_, ?_⟩ <;>
    (unfold structure_input
     repeat' split
     all_goals (first | rfl | simp [stage_begin, stage_error])
     all_goals (repeat' split
                all_goals (first | rfl | simp [stage_begin, stage_error])))

/-- The generation stage bumps the step counter and refreshes the
timestamp. -/
theorem generate_draft_bumps (clients : List (Except PyExn JobPostingDraft × String))
    (now : Nat) (state : WorkflowState) :
    (generate_draft clients now state).step_count = state.step_count + 1 ∧
    (generate_draft clients now state).last_updated = now := by
  refine ⟨?_, ?_⟩ <;>
    (unfold generate_draft
     repeat' split
     all_goals (first | rfl | simp [stage_begin, stage_error])
     all_goals (repeat' split
                all_goals (first | rfl | simp [stage_begin, stage_error])))

/-- The consistency stage bumps the step counter and refreshes the
timestamp. -/
theorem call_hallucination_bumps (oracle : Nat → AgentResponse ProcessedResult)
    (now : Nat) (state : WorkflowState) :
    (call_hallucination_validation_agent oracle now state).step_count
        = state.step_count + 1 ∧
    (call_hallucination_validation_agent oracle now state).last_updated = now := by
  refine ⟨?_, ?_⟩ <;>
    (unfold call_hallucination_validation_agent
     repeat' split
     all_goals (first | rfl | simp [stage_begin, stage_error])
     all_goals (repeat' split
                all_goals (first | rfl | simp [stage_begin, stage_error])))

/-- C10: every stage invocation that does not take the idempotent skip path
increments `step_count` by exactly one and sets `last_updated` to the current
tick at the start of the stage, and this persists whether the stage ends in
success or in the error status (the bookkeeping happens first inside the
`try` block and no handler reverts it). -/
theorem C10_each_stage_bumps_step_count_and_timestamp
    (proc : Except PyExn (UserInput × StageMetadata))
    (oracleS : Nat → AgentResponse UserInput)
    (oracleH : Nat → AgentResponse ProcessedResult)
    (clients : List (Except PyExn JobPostingDraft × String))
    (db : DBOutcome) (now : Nat) (state : WorkflowState) :
    (state.user_input = none →
      (structure_natural_language_input proc now state).1.step_count
          = state.step_count + 1 ∧
      (structure_natural_language_input proc now state).1.last_updated = now) ∧
    ((call_sensitivity_validation_agent oracleS now state).step_count
          = state.step_count + 1 ∧
      (call_sensitivity_validation_agent oracleS now state).last_updated = now) ∧
    ((retrieve_company_data db now state).step_count = state.step_count + 1 ∧
      (retrieve_company_data db now state).last_updated = now) ∧
    ((structure_input now state).step_count = state.step_count + 1 ∧
      (structure_input now state).last_updated = now) ∧
    ((generate_draft clients now state).step_count = state.step_count + 1 ∧
      (generate_draft clients now state).last_updated = now) ∧
    ((call_hallucination_validation_agent oracleH now state).step_count
          = state.step_count + 1 ∧
      (call_hallucination_validation_agent oracleH now state).last_updated = now) :=
  ⟨fun h => structure_nli_bumps proc now state h,
   call_sensitivity_bumps oracleS now state,
   retrieve_company_data_bumps db now state,
   structure_input_bumps now state,
   generate_draft_bumps clients now state,
   call_hallucination_bumps oracleH now state⟩

/-- A fresh state carrying only raw text, for the C10 witness. -/
def stateRawOnly : WorkflowState :=
  initial_state "wf-c10" (some "ACME corp, 백엔드 엔지니어, SQL 필수") none 0

/-- Witness for C10 at concrete oracles and a concrete state whose
structured request is absent (so the skip hypothesis is discharged). -/
theorem C10_witness :
    stateRawOnly.user_input = none ∧
    (structure_natural_language_input (Except.error PyExn.llmError) 7 stateRawOnly).1.step_count
        = stateRawOnly.step_count + 1 ∧
    (call_sensitivity_validation_agent cleanCompletionOracle 7 stateRawOnly).step_count
        = stateRawOnly.step_count + 1 ∧
    (retrieve_company_data DBOutcome.dbError 7 stateRawOnly).last_updated = 7 ∧
    (generate_draft okProvider 7 stateRawOnly).step_count = stateRawOnly.step_count + 1 :=
  ⟨rfl,
   ((C10_each_stage_bumps_step_count_and_timestamp (Except.error PyExn.llmError)
        cleanCompletionOracle immediateNoneOracle okProvider DBOutcome.dbError 7
        stateRawOnly).1 rfl).1,
   (C10_each_stage_bumps_step_count_and_timestamp (Except.error PyExn.llmError)
        cleanCompletionOracle immediateNoneOracle okProvider DBOutcome.dbError 7
        stateRawOnly).2.1.1,
   (C10_each_stage_bumps_step_count_and_timestamp (Except.error PyExn.llmError)
        cleanCompletionOracle immediateNoneOracle okProvider DBOutcome.dbError 7
        stateRawOnly).2.2.1.2,
   (C10_each_stage_bumps_step_count_and_timestamp (Except.error PyExn.llmError)
        cleanCompletionOracle immediateNoneOracle okProvider DBOutcome.dbError 7
        stateRawOnly).2.2.2.2.1.1⟩

end JobOpeningAutogen
